import Mathlib

/-!
Verification of the homework status bot (`homework.py`, `exceptions.py`).

The Python program is shallowly embedded: JSON-like Python values become the
inductive type `PyVal`, raised exceptions become the `Except Exc` monad, log
calls become explicit `LogEntry` lists, and the two external collaborators
(the HTTP client and the messaging client) become oracle parameters
(`FetchOutcome`, a delivery outcome) supplied to the embedded functions.
-/

/-- A Python value as produced by `response.json()` and manipulated by the
program: `None`, booleans, integers, strings, lists and (string-keyed)
dictionaries.  JSON objects always have string keys, so `dict` carries an
association list keyed by `String`; lookups take the first matching key, which
coincides with Python dictionaries whenever keys are unique. -/
inductive PyVal where
  | none : PyVal
  | bool : Bool → PyVal
  | int : Int → PyVal
  | str : String → PyVal
  | list : List PyVal → PyVal
  | dict : List (String × PyVal) → PyVal

/-- First-match lookup in a string-keyed dictionary (Python `d[k]` / `k in d`). -/
def lookupKey (kvs : List (String × PyVal)) (k : String) : Option PyVal :=
  match kvs with
  | [] => Option.none
  | (k2, v) :: rest => if k2 = k then Option.some v else lookupKey rest k

/-- Python `k in d` for a dictionary `d`. -/
def hasKey (kvs : List (String × PyVal)) (k : String) : Bool :=
  (lookupKey kvs k).isSome

/-- Python `x is None`: true exactly on the `None` object. -/
def isNoneV : PyVal → Bool
  | PyVal.none => true
  | _ => false

/-- Python `isinstance(x, dict)`. -/
def isDictV : PyVal → Bool
  | PyVal.dict _ => true
  | _ => false

/-- Python `isinstance(x, list)`. -/
def isListV : PyVal → Bool
  | PyVal.list _ => true
  | _ => false

/-- Rendering of `type(x)` as used by f-strings in the error messages,
e.g. `<class 'dict'>`. -/
def pyTypeName : PyVal → String
  | PyVal.none => "<class \x27NoneType\x27>"
  | PyVal.bool _ => "<class \x27bool\x27>"
  | PyVal.int _ => "<class \x27int\x27>"
  | PyVal.str _ => "<class \x27str\x27>"
  | PyVal.list _ => "<class \x27list\x27>"
  | PyVal.dict _ => "<class \x27dict\x27>"

/-- The bare Python type name, as it appears in `TypeError` messages. -/
def pyTypeShort : PyVal → String
  | PyVal.none => "NoneType"
  | PyVal.bool _ => "bool"
  | PyVal.int _ => "int"
  | PyVal.str _ => "str"
  | PyVal.list _ => "list"
  | PyVal.dict _ => "dict"

/-- Python hashability: lists and dictionaries are unhashable, every other
value the program can meet here is hashable. -/
def pyHashable : PyVal → Bool
  | PyVal.list _ => false
  | PyVal.dict _ => false
  | _ => true

/-- Python `repr(x)` (restricted to the values of `PyVal`; string escaping
inside `repr` of a string is not modelled beyond quoting). -/
def pyRepr : PyVal → String
  | PyVal.none => "None"
  | PyVal.bool true => "True"
  | PyVal.bool false => "False"
  | PyVal.int n => toString n
  | PyVal.str s => "\x27" ++ s ++ "\x27"
  | PyVal.list l =>
      "[" ++ String.intercalate ", " (l.attach.map (fun x => pyRepr x.1)) ++ "]"
  | PyVal.dict kvs =>
      "\x7b" ++
        String.intercalate ", "
          (kvs.attach.map (fun x => "\x27" ++ x.1.1 ++ "\x27: " ++ pyRepr x.1.2)) ++
      "\x7d"
decreasing_by
  · have h := List.sizeOf_lt_of_mem x.2
    simp only [PyVal.list.sizeOf_spec]
    omega
  · have h := List.sizeOf_lt_of_mem x.2
    have h2 : sizeOf (x : String × PyVal).2 < sizeOf (x : String × PyVal) := by
      cases (x : String × PyVal) with
      | mk a b => simp
    simp only [PyVal.dict.sizeOf_spec]
    omega

/-- Python `str(x)` as used by f-string interpolation: a string renders as its
own characters, every other value as its `repr`. -/
def pyStr (v : PyVal) : String :=
  match v with
  | PyVal.str s => s
  | other => pyRepr other

/-- Python `pat in s` for strings: `pat` a prefix of `s`. -/
def listIsPre (pat s : List Char) : Bool :=
  match pat, s with
  | [], _ => true
  | _ :: _, [] => false
  | p :: ps, c :: cs => p = c && listIsPre ps cs

/-- Python `pat in s` for strings: `pat` a substring of `s`. -/
def listHasSub (pat s : List Char) : Bool :=
  match s with
  | [] => listIsPre pat []
  | _ :: rest => listIsPre pat s || listHasSub pat rest

/-- The exceptions the embedded program can raise.  The first eight mirror
`exceptions.py` (plus Python built-ins `TypeError` / `AttributeError` raised
by the runtime itself); each carries the message it was constructed with. -/
inductive Exc where
  | HTTPException : String → Exc
  | EmptyResponseException : String → Exc
  | NotDictException : String → Exc
  | NotListException : String → Exc
  | StatusNotExistException : String → Exc
  | HWStatusNotExistException : String → Exc
  | HWNameNotExistException : String → Exc
  | HWNotExistException : String → Exc
  | TypeErrorExc : String → Exc
  | AttributeErrorExc : String → Exc
  | KeyErrorExc : String → Exc
deriving DecidableEq

/-- Python `str(e)` for an exception `e` constructed with one string argument:
the classes deriving `KeyError` inherit `KeyError.__str__`, which shows the
`repr` of the argument (hence surrounding quotes); all the others show the
argument itself. -/
def exStr : Exc → String
  | Exc.StatusNotExistException m => "\x27" ++ m ++ "\x27"
  | Exc.HWStatusNotExistException m => "\x27" ++ m ++ "\x27"
  | Exc.HWNameNotExistException m => "\x27" ++ m ++ "\x27"
  | Exc.HWNotExistException m => "\x27" ++ m ++ "\x27"
  | Exc.HTTPException m => m
  | Exc.EmptyResponseException m => m
  | Exc.NotDictException m => m
  | Exc.NotListException m => m
  | Exc.TypeErrorExc m => m
  | Exc.AttributeErrorExc m => m
  | Exc.KeyErrorExc m => "\x27" ++ m ++ "\x27"

/-- Python `item in container` where `item` is a string literal: key test for
dictionaries, membership for lists, substring test for strings, `TypeError`
for non-iterable values. -/
def pyIn (item : String) (container : PyVal) : Except Exc Bool :=
  match container with
  | PyVal.dict kvs => Except.ok (hasKey kvs item)
  | PyVal.list items =>
      Except.ok (items.any (fun v =>
        match v with
        | PyVal.str t => t = item
        | _ => false))
  | PyVal.str s => Except.ok (listHasSub item.data s.data)
  | other =>
      Except.error (Exc.TypeErrorExc
        ("argument of type \x27" ++ pyTypeShort other ++ "\x27 is not iterable"))

/-- Python `container[key]` with a string key: dictionary lookup, raising
`KeyError` when the key is absent (the program only subscripts after a
membership test, so that branch is never taken by its call sites);
subscripting a non-dictionary with a string raises `TypeError`. -/
def pyGetItemStr (container : PyVal) (key : String) : Except Exc PyVal :=
  match container with
  | PyVal.dict kvs =>
      match lookupKey kvs key with
      | Option.some v => Except.ok v
      | Option.none => Except.error (Exc.KeyErrorExc key)
  | PyVal.list _ =>
      Except.error (Exc.TypeErrorExc
        "list indices must be integers or slices, not str")
  | PyVal.str _ =>
      Except.error (Exc.TypeErrorExc "string indices must be integers")
  | other =>
      Except.error (Exc.TypeErrorExc
        ("\x27" ++ pyTypeShort other ++ "\x27 object is not subscriptable"))

/-- Python `d.get(key, default)` (only called on dictionaries by the
program). -/
def pyGetD (d : PyVal) (key : String) (dflt : PyVal) : PyVal :=
  match d with
  | PyVal.dict kvs =>
      match lookupKey kvs key with
      | Option.some v => v
      | Option.none => dflt
  | _ => dflt

/-- First-match lookup in a string-to-string association list. -/
def lookupStr (kvs : List (String × String)) (k : String) : Option String :=
  match kvs with
  | [] => Option.none
  | (k2, v) :: rest => if k2 = k then Option.some v else lookupStr rest k

/-- Log severities used by the program. -/
inductive LogLevel where
  | debug
  | info
  | error
  | critical
deriving DecidableEq

/-- One emitted log line: severity and message. -/
structure LogEntry where
  level : LogLevel
  msg : String
deriving DecidableEq

/-- `RETRY_PERIOD` (homework.py line 20): the fixed sleep between polls. -/
def RETRY_PERIOD : Nat := 600

/-- `ENDPOINT` (homework.py line 21). -/
def ENDPOINT : String :=
  "https://practicum.yandex.ru/api/user_api/homework_statuses/"

/-- `HOMEWORK_VERDICTS` (homework.py lines 25-29): the fixed verdict
mapping. -/
def HOMEWORK_VERDICTS : List (String × String) :=
  [("approved", "Работа проверена: ревьюеру всё понравилось. Ура!"),
   ("reviewing", "Работа взята на проверку ревьюером."),
   ("rejected", "Работа проверена: у ревьюера есть замечания.")]

/-- Python `v in HOMEWORK_VERDICTS` followed (on success) by
`HOMEWORK_VERDICTS[v]`: hashing an unhashable value (list or dict) raises
`TypeError`; a hashable value is a key exactly when it is one of the three
verdict strings, in which case the mapped sentence is returned. -/
def verdictGet (v : PyVal) : Except Exc (Option String) :=
  if pyHashable v then
    Except.ok
      (match v with
       | PyVal.str s => lookupStr HOMEWORK_VERDICTS s
       | _ => Option.none)
  else
    Except.error (Exc.TypeErrorExc
      ("unhashable type: \x27" ++ pyTypeShort v ++ "\x27"))

/-- Membership of a value among the keys of `HOMEWORK_VERDICTS` (defined only
for hashable values; used to state claims). -/
def verdictMem (v : PyVal) : Bool :=
  match v with
  | PyVal.str s => (lookupStr HOMEWORK_VERDICTS s).isSome
  | _ => false

/-- `send_message` (homework.py lines 35-44).  The delivery outcome of the
external `bot.send_message` call is an oracle argument: `Except.ok ()` when
the messaging client succeeds, `Except.error err` when it raises a
`TelegramError` with text `err` (in the `python-telegram-bot` library every
delivery failure derives from `TelegramError`).  The function logs, attempts
exactly one delivery, catches the `TelegramError`, logs it at error level and
returns normally; the `Except Exc` result records whether anything escaped to
the caller. -/
def send_message (delivery : Except String Unit) : Except Exc (List LogEntry) :=
  match delivery with
  | Except.ok _ =>
      Except.ok
        [LogEntry.mk LogLevel.info "Формирование сообщения",
         LogEntry.mk LogLevel.debug "Сообщение успешно отправлено"]
  | Except.error err =>
      Except.ok
        [LogEntry.mk LogLevel.info "Формирование сообщения",
         LogEntry.mk LogLevel.error
           ("Сбой при отправке сообщения в телеграм: " ++ err)]

/-- The observable outcome of the external `requests.get` call inside
`get_api_answer`: either an HTTP response with a status code and a parsed
JSON body, or a raised `requests.RequestException` (connection failure,
timeout, and every other transport-level error of the `requests` library). -/
inductive FetchOutcome where
  | httpResp : Nat → PyVal → FetchOutcome
  | requestErr : FetchOutcome

/-- `get_api_answer` (homework.py lines 47-66).  On a response with a non-200
code it raises `exceptions.HTTPException` (which does not derive from
`requests.RequestException` and therefore escapes the `except` clause); on a
200 response it returns the parsed body; on a `requests.RequestException` the
`except` clause logs `Ошибка запроса` and the function falls through,
returning Python `None`. -/
def get_api_answer (outcome : FetchOutcome) : Except Exc PyVal :=
  match outcome with
  | FetchOutcome.httpResp code body =>
      if code ≠ 200 then
        Except.error (Exc.HTTPException
          ("Страница недоступна. Ошибка: " ++ toString code))
      else
        Except.ok body
  | FetchOutcome.requestErr => Except.ok PyVal.none

/-- `check_response` (homework.py lines 69-92): type check, key check,
sequence check, the (dead) `is None` check, then the `homeworks` value is
returned unmodified. -/
def check_response (response : PyVal) : Except Exc (List PyVal) :=
  match response with
  | PyVal.dict kvs =>
      match lookupKey kvs "homeworks" with
      | Option.none =>
          Except.error (Exc.HWNotExistException "Домашняя работа отсутствует")
      | Option.some hv =>
          match hv with
          | PyVal.list items =>
              if isNoneV (PyVal.list items) then
                Except.error (Exc.EmptyResponseException
                  "Список домашних работ не содержит элементов")
              else
                Except.ok items
          | other =>
              Except.error (Exc.NotListException
                ("Пришел ответ в неверном формате: " ++ pyTypeName other))
  | other =>
      Except.error (Exc.NotDictException
        ("Пришел ответ в неверном формате: " ++ pyTypeName other))

/-- `parse_status` (homework.py lines 95-116): membership tests for the two
keys, extraction, verdict lookup, and the f-string template on success. -/
def parse_status (homework : PyVal) : Except Exc String :=
  match pyIn "homework_name" homework with
  | Except.error e => Except.error e
  | Except.ok hasName =>
      if hasName = false then
        Except.error (Exc.HWNameNotExistException
          "Отсутствует имя домашней работы")
      else
        match pyIn "status" homework with
        | Except.error e => Except.error e
        | Except.ok hasStatus =>
            if hasStatus = false then
              Except.error (Exc.StatusNotExistException
                "Отсутствует статус домашней работы")
            else
              match pyGetItemStr homework "homework_name" with
              | Except.error e => Except.error e
              | Except.ok homework_name =>
                  match pyGetItemStr homework "status" with
                  | Except.error e => Except.error e
                  | Except.ok homework_status =>
                      match verdictGet homework_status with
                      | Except.error e => Except.error e
                      | Except.ok Option.none =>
                          Except.error (Exc.HWStatusNotExistException
                            ("Неизвестный статус домашней работы: " ++
                              pyStr homework_status))
                      | Except.ok (Option.some verdict) =>
                          Except.ok
                            ("Изменился статус проверки работы \"" ++
                              pyStr homework_name ++ "\". " ++ verdict)

/-- The three environment variables read at module load
(homework.py lines 16-18): `os.getenv` yields `None` when a variable is
unset, otherwise its (possibly empty) string value. -/
structure Env where
  PRACTICUM_TOKEN : Option String
  TELEGRAM_TOKEN : Option String
  TELEGRAM_CHAT_ID : Option String

/-- Python truthiness of an `os.getenv` result: `None` and the empty string
are falsy, every other string is truthy. -/
def truthyStr : Option String → Bool
  | Option.none => false
  | Option.some s => s ≠ ""

/-- `check_tokens` (homework.py lines 119-138).  When all three variables are
truthy the function logs and returns `True`.  Otherwise it logs a critical
line, builds the tuple of the three values, and iterates: the first value
that `is None` is passed to `non_existent_tokens.add(...)` — but
`non_existent_tokens` was initialised to the empty tuple `()`, and tuples
have no `add` method, so the statement raises `AttributeError` and the
second critical log line is never reached.  Only when no value is `None`
(all falsy values are empty strings) does the loop finish, logging
`Отсутствуют токены: ()` and returning Python `None`.  The result is the log
lines paired with either a raised exception or the returned value (`some
true` for `True`, `none` for Python `None`). -/
def check_tokens (env : Env) : List LogEntry × Except Exc (Option Bool) :=
  let logs0 := [LogEntry.mk LogLevel.info
    "Проверка доступности переменных окружения"]
  if truthyStr env.PRACTICUM_TOKEN && truthyStr env.TELEGRAM_CHAT_ID &&
      truthyStr env.TELEGRAM_TOKEN then
    (logs0, Except.ok (Option.some true))
  else
    let logs1 := logs0 ++
      [LogEntry.mk LogLevel.critical "Это логирование нужно для тестов"]
    let tokens := [env.PRACTICUM_TOKEN, env.TELEGRAM_CHAT_ID,
      env.TELEGRAM_TOKEN]
    if tokens.any Option.isNone then
      (logs1, Except.error (Exc.AttributeErrorExc
        "\x27tuple\x27 object has no attribute \x27add\x27"))
    else
      (logs1 ++ [LogEntry.mk LogLevel.critical "Отсутствуют токены: ()"],
        Except.ok Option.none)

/-- How the startup part of `main` (homework.py lines 141-148, before the
`while True`) terminates. -/
inductive StartupOutcome where
  | enterLoop : StartupOutcome
  | sysExitNonZero : String → StartupOutcome
  | crashed : Exc → StartupOutcome
deriving DecidableEq

/-- The startup part of `main` (homework.py lines 141-148): log, construct
the Telegram `Bot` (an external collaborator, modelled as succeeding and
performing no network call), call `check_tokens`, and `sys.exit` with a
message (a non-zero exit status) unless it returned a truthy value.  An
exception raised inside `check_tokens` is not handled anywhere on this path,
so it terminates the process with a traceback and a non-zero status.  No
request to the status API is made on this path. -/
def main_startup (env : Env) : List LogEntry × StartupOutcome :=
  let logs0 := [LogEntry.mk LogLevel.info "Запуск бота"]
  match check_tokens env with
  | (logs, Except.error e) => (logs0 ++ logs, StartupOutcome.crashed e)
  | (logs, Except.ok (Option.some true)) =>
      (logs0 ++ logs, StartupOutcome.enterLoop)
  | (logs, Except.ok _) =>
      (logs0 ++ logs,
        StartupOutcome.sysExitNonZero "Отсутствует один или несколько токенов")

/-- The loop state of `main` (homework.py lines 147-148): `current_timestamp`
(the spec's `lastWindowStart`; it starts as an integer but
`response.get('current_date', ...)` can store any JSON value into it) and
`previous_message` (the spec's `lastSentMessage`). -/
structure LoopState where
  current_timestamp : PyVal
  previous_message : String

/-- The `try` part of one loop iteration (homework.py lines 151-162):
fetch, validate, then either format the first record and advance the
timestamp via `response.get('current_date', current_timestamp)`, or produce
the `Нет новых статусов` sentinel.  Any raised exception propagates. -/
def tryBody (fetch : FetchOutcome) (ts : PyVal) : Except Exc (String × PyVal) :=
  match get_api_answer fetch with
  | Except.error e => Except.error e
  | Except.ok response =>
      match check_response response with
      | Except.error e => Except.error e
      | Except.ok homeworks =>
          match homeworks with
          | [] => Except.ok ("Нет новых статусов", ts)
          | hw :: _ =>
              match parse_status hw with
              | Except.error e => Except.error e
              | Except.ok message =>
                  Except.ok (message, pyGetD response "current_date" ts)

/-- The `try`/`except` part of one loop iteration (homework.py lines
151-165): the `except Exception` clause converts any raised exception into
the error-report message `Сбой в работе программы: {error}` and leaves the
timestamp unchanged.  Returns the computed `message` and the new
`current_timestamp`. -/
def loopTry (fetch : FetchOutcome) (ts : PyVal) : String × PyVal :=
  match tryBody fetch ts with
  | Except.ok r => r
  | Except.error e => ("Сбой в работе программы: " ++ exStr e, ts)

/-- The message computed by one loop iteration (first component of
`loopTry`). -/
def iterMessage (fetch : FetchOutcome) (ts : PyVal) : String :=
  (loopTry fetch ts).1

/-- One full iteration of the `while True` loop (homework.py lines 150-170):
the `try`/`except` body, then the `finally` clause, which delivers the
message via `send_message` exactly when it differs from `previous_message`
and then records it in `previous_message`.  `fetch` is the transport oracle,
`delivery` the messaging oracle (consumed only when a send happens).  The
result carries the successor state and the list of texts handed to the
Notifier; an `Except.error` would mean an exception escaped the iteration,
which the theorems below show never happens. -/
def iteration (fetch : FetchOutcome) (delivery : Except String Unit)
    (st : LoopState) : Except Exc (LoopState × List String) :=
  let mt := loopTry fetch st.current_timestamp
  if mt.1 ≠ st.previous_message then
    match send_message delivery with
    | Except.error e => Except.error e
    | Except.ok _logs =>
        Except.ok (LoopState.mk mt.2 mt.1, [mt.1])
  else
    Except.ok (LoopState.mk mt.2 st.previous_message, [])

/-- One iteration always completes normally: the successor state carries the
new timestamp and the computed message as `previous_message` (in the
suppressed branch the old `previous_message` already equals the message), and
the Notifier receives the message exactly when it differs from
`previous_message`. -/
theorem iteration_spec (f : FetchOutcome) (d : Except String Unit)
    (st : LoopState) :
    iteration f d st =
      Except.ok
        (LoopState.mk (loopTry f st.current_timestamp).2
          (loopTry f st.current_timestamp).1,
         if (loopTry f st.current_timestamp).1 = st.previous_message
         then ([] : List String)
         else [(loopTry f st.current_timestamp).1]) := by
  by_cases h : (loopTry f st.current_timestamp).1 = st.previous_message
  · simp [iteration, h]
  · cases d <;> simp [iteration, h, send_message]

/-- The initial loop state of `main`: an integer start timestamp (taken from
the clock; its value is irrelevant to every claim) and the empty
`previous_message`. -/
def initState : LoopState := LoopState.mk (PyVal.int 0) ""

/-- The record of Scenario A. -/
def hwX : PyVal :=
  PyVal.dict [("homework_name", PyVal.str "X"), ("status", PyVal.str "approved")]

/-- The payload of Scenario A. -/
def payloadA : PyVal :=
  PyVal.dict [("homeworks", PyVal.list [hwX]), ("current_date", PyVal.int 1000)]

/-- The message of Scenario A. -/
def messageA : String :=
  "Изменился статус проверки работы \"X\". Работа проверена: ревьюеру всё понравилось. Ура!"

/-- A payload with an empty `homeworks` list and no `current_date`. -/
def payloadEmptyHW : PyVal := PyVal.dict [("homeworks", PyVal.list [])]

/-- A transport success carrying Scenario A's payload. -/
def fetchA : FetchOutcome := FetchOutcome.httpResp 200 payloadA

/-- A transport success carrying the empty-homeworks payload. -/
def fetchEmpty : FetchOutcome := FetchOutcome.httpResp 200 payloadEmptyHW

/-- A record whose `status` value is an (unhashable) list. -/
def hwBadStatus : PyVal :=
  PyVal.dict [("homework_name", PyVal.str "X"), ("status", PyVal.list [])]

/-- The environment with all three credentials unset. -/
def envAllMissing : Env := Env.mk Option.none Option.none Option.none

/-- The environment with only `PRACTICUM_TOKEN` unset. -/
def envMissingOne : Env :=
  Env.mk Option.none (Option.some "tg-token") (Option.some "chat-id")

/-- Recogniser for the Unknown-Verdict failure of the Formatter. -/
def isUnknownVerdictErr (r : Except Exc String) : Bool :=
  match r with
  | Except.error (Exc.HWStatusNotExistException _) => true
  | _ => false

/-- C1: the claim says a transport-level error makes `get_api_answer` fail
with a Transport Failure rather than return a non-failure value such as null.
The code does the opposite: the `except requests.RequestException` clause
only logs, so `get_api_answer` returns Python `None` (first conjunct).  The
loop still emits an error report and keeps `lastWindowStart`, but only
because `check_response` then rejects the `None` with a Not-A-Mapping
failure (second conjunct). -/
theorem claim_C1_transport_error_behavior :
    get_api_answer FetchOutcome.requestErr = Except.ok PyVal.none ∧
    iteration FetchOutcome.requestErr (Except.ok ()) initState =
      Except.ok
        (LoopState.mk initState.current_timestamp
          "Сбой в работе программы: Пришел ответ в неверном формате: <class \x27NoneType\x27>",
         ["Сбой в работе программы: Пришел ответ в неверном формате: <class \x27NoneType\x27>"]) :=
  ⟨rfl, rfl⟩

/-- C2: with credentials missing the process does stop before any network
call, but not as the claim says: `check_tokens` crashes with
`AttributeError` (the empty *tuple* `non_existent_tokens` has no `add`
method), so no critical-level message naming the missing credentials is ever
logged — the only critical line is the fixed string
`Это логирование нужно для тестов`.  Shown for all three credentials unset
and for a single one unset. -/
theorem claim_C2_missing_tokens_crash :
    (main_startup envAllMissing).2 =
      StartupOutcome.crashed (Exc.AttributeErrorExc
        "\x27tuple\x27 object has no attribute \x27add\x27") ∧
    ((main_startup envAllMissing).1.filter
        (fun e => e.level == LogLevel.critical)).map LogEntry.msg =
      ["Это логирование нужно для тестов"] ∧
    (main_startup envMissingOne).2 =
      StartupOutcome.crashed (Exc.AttributeErrorExc
        "\x27tuple\x27 object has no attribute \x27add\x27") ∧
    ((main_startup envMissingOne).1.filter
        (fun e => e.level == LogLevel.critical)).map LogEntry.msg =
      ["Это логирование нужно для тестов"] :=
  ⟨rfl, rfl, rfl, rfl⟩

/-- C3: `check_response` performs its checks in the order mapping / key /
sequence, raises the distinct named exception of the first violated
condition, and on success returns the `homeworks` value unmodified, the
empty list included. -/
theorem claim_C3_check_response_contract :
    (∀ response : PyVal, isDictV response = false →
      check_response response =
        Except.error (Exc.NotDictException
          ("Пришел ответ в неверном формате: " ++ pyTypeName response))) ∧
    (∀ kvs : List (String × PyVal), lookupKey kvs "homeworks" = Option.none →
      check_response (PyVal.dict kvs) =
        Except.error (Exc.HWNotExistException "Домашняя работа отсутствует")) ∧
    (∀ (kvs : List (String × PyVal)) (v : PyVal),
      lookupKey kvs "homeworks" = Option.some v → isListV v = false →
      check_response (PyVal.dict kvs) =
        Except.error (Exc.NotListException
          ("Пришел ответ в неверном формате: " ++ pyTypeName v))) ∧
    (∀ (kvs : List (String × PyVal)) (items : List PyVal),
      lookupKey kvs "homeworks" = Option.some (PyVal.list items) →
      check_response (PyVal.dict kvs) = Except.ok items) ∧
    check_response (PyVal.dict [("homeworks", PyVal.list [])]) =
      Except.ok [] := by
  refine ⟨?_, ?_, ?_, ?_, rfl⟩
  · intro response h
    cases response <;> simp_all [check_response, isDictV, pyTypeName]
  · intro kvs h
    simp [check_response, h]
  · intro kvs v h hv
    cases v <;> simp_all [check_response, isListV, pyTypeName, isNoneV]
  · intro kvs items h
    simp [check_response, h, isNoneV]

/-- C3 witness: each branch of the contract at a concrete input. -/
theorem claim_C3_witness :
    check_response (PyVal.int 3) =
      Except.error (Exc.NotDictException
        ("Пришел ответ в неверном формате: " ++ pyTypeName (PyVal.int 3))) ∧
    check_response (PyVal.dict []) =
      Except.error (Exc.HWNotExistException "Домашняя работа отсутствует") ∧
    check_response (PyVal.dict [("homeworks", PyVal.str "not-a-list")]) =
      Except.error (Exc.NotListException
        ("Пришел ответ в неверном формате: " ++
          pyTypeName (PyVal.str "not-a-list"))) ∧
    check_response (PyVal.dict [("homeworks", PyVal.list [PyVal.none])]) =
      Except.ok [PyVal.none] ∧
    check_response (PyVal.dict [("homeworks", PyVal.list [])]) =
      Except.ok [] :=
  ⟨claim_C3_check_response_contract.1 (PyVal.int 3) rfl,
   claim_C3_check_response_contract.2.1 [] rfl,
   claim_C3_check_response_contract.2.2.1
     [("homeworks", PyVal.str "not-a-list")] (PyVal.str "not-a-list") rfl rfl,
   claim_C3_check_response_contract.2.2.2.1
     [("homeworks", PyVal.list [PyVal.none])] [PyVal.none] rfl,
   claim_C3_check_response_contract.2.2.2.2⟩

/-- C8: `send_message` never lets a delivery failure reach the caller: on
every delivery outcome it returns normally, and on a failing delivery the
`TelegramError` is logged at error level and swallowed. -/
theorem claim_C8_delivery_failures_swallowed :
    (∀ delivery : Except String Unit,
      ∃ logs : List LogEntry, send_message delivery = Except.ok logs) ∧
    (∀ err : String,
      send_message (Except.error err) =
        Except.ok
          [LogEntry.mk LogLevel.info "Формирование сообщения",
           LogEntry.mk LogLevel.error
             ("Сбой при отправке сообщения в телеграм: " ++ err)]) := by
  constructor
  · intro delivery
    cases delivery
    · exact ⟨_, rfl⟩
    · exact ⟨_, rfl⟩
  · intro err
    rfl

/-- C9: the `EmptyResponseException` branch of `check_response` is
unreachable: the `response['homeworks'] is None` test runs only after the
value has passed `isinstance(..., list)`, and a list is never the `None`
object, so no input makes `check_response` raise it. -/
theorem claim_C9_empty_response_unreachable :
    ∀ (response : PyVal) (s : String),
      check_response response ≠
        Except.error (Exc.EmptyResponseException s) := by
  intro response s h
  unfold check_response at h
  split at h
  all_goals try split at h
  all_goals try split at h
  all_goals try split at h
  all_goals simp_all [isNoneV]

/-- C4: framing of `lastWindowStart` per iteration.  When the validated
record list is non-empty and formatting succeeds, the new
`current_timestamp` is `response.get('current_date', current_timestamp)` —
the payload's `current_date` when the key is present, the old value
otherwise.  When the record list is empty, and when any exception is raised
inside the fetch/validate/format body, `current_timestamp` is unchanged. -/
theorem claim_C4_window_frame (f : FetchOutcome) (d : Except String Unit)
    (st : LoopState) :
    (∀ (resp hw : PyVal) (rest : List PyVal) (msg : String),
      get_api_answer f = Except.ok resp →
      check_response resp = Except.ok (hw :: rest) →
      parse_status hw = Except.ok msg →
      ∃ (st2 : LoopState) (sent : List String),
        iteration f d st = Except.ok (st2, sent) ∧
        st2.current_timestamp =
          pyGetD resp "current_date" st.current_timestamp) ∧
    (∀ resp : PyVal,
      get_api_answer f = Except.ok resp →
      check_response resp = Except.ok [] →
      ∃ (st2 : LoopState) (sent : List String),
        iteration f d st = Except.ok (st2, sent) ∧
        st2.current_timestamp = st.current_timestamp) ∧
    (∀ e : Exc,
      tryBody f st.current_timestamp = Except.error e →
      ∃ (st2 : LoopState) (sent : List String),
        iteration f d st = Except.ok (st2, sent) ∧
        st2.current_timestamp = st.current_timestamp) := by
  refine ⟨?_, ?_, ?_⟩
  · intro resp hw rest msg h1 h2 h3
    have hL : loopTry f st.current_timestamp =
        (msg, pyGetD resp "current_date" st.current_timestamp) := by
      simp [loopTry, tryBody, h1, h2, h3]
    exact ⟨_, _, iteration_spec f d st, by rw [hL]⟩
  · intro resp h1 h2
    have hL : loopTry f st.current_timestamp =
        ("Нет новых статусов", st.current_timestamp) := by
      simp [loopTry, tryBody, h1, h2]
    exact ⟨_, _, iteration_spec f d st, by rw [hL]⟩
  · intro e h
    have hL : loopTry f st.current_timestamp =
        ("Сбой в работе программы: " ++ exStr e, st.current_timestamp) := by
      simp [loopTry, h]
    exact ⟨_, _, iteration_spec f d st, by rw [hL]⟩

/-- C4 witness: the three cases at concrete inputs — Scenario A (non-empty
records, `current_date` present), the empty-homeworks payload, and a
transport error (which surfaces as the Not-A-Mapping failure on `None`). -/
theorem claim_C4_witness :
    (∃ (st2 : LoopState) (sent : List String),
      iteration fetchA (Except.ok ()) initState = Except.ok (st2, sent) ∧
      st2.current_timestamp =
        pyGetD payloadA "current_date" initState.current_timestamp) ∧
    (∃ (st2 : LoopState) (sent : List String),
      iteration fetchEmpty (Except.ok ()) initState = Except.ok (st2, sent) ∧
      st2.current_timestamp = initState.current_timestamp) ∧
    (∃ (st2 : LoopState) (sent : List String),
      iteration FetchOutcome.requestErr (Except.ok ()) initState =
        Except.ok (st2, sent) ∧
      st2.current_timestamp = initState.current_timestamp) :=
  ⟨(claim_C4_window_frame fetchA (Except.ok ()) initState).1
      payloadA hwX [] messageA rfl rfl rfl,
   (claim_C4_window_frame fetchEmpty (Except.ok ()) initState).2.1
      payloadEmptyHW rfl rfl,
   (claim_C4_window_frame FetchOutcome.requestErr (Except.ok ()) initState).2.2
      (Exc.NotDictException
        "Пришел ответ в неверном формате: <class \x27NoneType\x27>") rfl⟩

/-- C5: two consecutive iterations computing the same message text invoke
the Notifier at most once for that text; the second delivery is suppressed
by the `message != previous_message` comparison (the first iteration left
`previous_message` equal to the text), and after both iterations
`previous_message` equals that text. -/
theorem claim_C5_dedup :
    ∀ (f1 f2 : FetchOutcome) (d1 d2 : Except String Unit)
      (st st1 st2 : LoopState) (sent1 sent2 : List String) (m : String),
      iteration f1 d1 st = Except.ok (st1, sent1) →
      iteration f2 d2 st1 = Except.ok (st2, sent2) →
      iterMessage f1 st.current_timestamp = m →
      iterMessage f2 st1.current_timestamp = m →
      sent2 = [] ∧ st1.previous_message = m ∧ st2.previous_message = m ∧
        sent1.count m + sent2.count m ≤ 1 := by
  intro f1 f2 d1 d2 st st1 st2 sent1 sent2 m h1 h2 hm1 hm2
  unfold iterMessage at hm1 hm2
  subst hm1
  have e1 := (iteration_spec f1 d1 st).symm.trans h1
  injection e1 with e1
  injection e1 with hst1 hsent1
  have e2 := (iteration_spec f2 d2 st1).symm.trans h2
  injection e2 with e2
  injection e2 with hst2 hsent2
  have hp : st1.previous_message = (loopTry f1 st.current_timestamp).1 := by
    rw [← hst1]
  refine ⟨?_, ?_, ?_, ?_⟩
  · rw [← hsent2, hm2, hp]
    simp
  · rw [← hst1]
  · rw [← hst2]
    simpa using hm2
  · rw [← hsent1, ← hsent2, hm2, hp]
    by_cases hc :
      (loopTry f1 st.current_timestamp).1 = st.previous_message
    · simp [hc]
    · simp [hc]

/-- C5 witness: two consecutive iterations on the empty-homeworks payload
both compute the sentinel message; it is delivered once, then suppressed. -/
theorem claim_C5_witness :
    ([] : List String) = [] ∧
    (LoopState.mk (PyVal.int 0) "Нет новых статусов").previous_message =
      "Нет новых статусов" ∧
    (LoopState.mk (PyVal.int 0) "Нет новых статусов").previous_message =
      "Нет новых статусов" ∧
    (["Нет новых статусов"].count "Нет новых статусов" +
      ([] : List String).count "Нет новых статусов" ≤ 1) :=
  claim_C5_dedup fetchEmpty fetchEmpty (Except.ok ()) (Except.ok ())
    initState (LoopState.mk (PyVal.int 0) "Нет новых статусов")
    (LoopState.mk (PyVal.int 0) "Нет новых статусов")
    ["Нет новых статусов"] [] "Нет новых статусов" rfl rfl rfl rfl

/-- C6: for every record with a `homework_name` and whose `status` is a key
of the verdict mapping, `parse_status` returns exactly the template
`Изменился статус проверки работы "{name}". {verdict}` with the record's
name (as rendered by the f-string) and the mapped verdict sentence; and
Scenario A concretely: the payload with record `X`/`approved` and
`current_date` 1000 yields the expected message and advances the timestamp
to 1000. -/
theorem claim_C6_status_template :
    (∀ (kvs : List (String × PyVal)) (name : PyVal) (s verdict : String),
      lookupKey kvs "homework_name" = Option.some name →
      lookupKey kvs "status" = Option.some (PyVal.str s) →
      lookupStr HOMEWORK_VERDICTS s = Option.some verdict →
      parse_status (PyVal.dict kvs) =
        Except.ok ("Изменился статус проверки работы \"" ++ pyStr name ++
          "\". " ++ verdict)) ∧
    (∃ st2 : LoopState,
      iteration fetchA (Except.ok ()) initState =
        Except.ok (st2, [messageA]) ∧
      st2.current_timestamp = PyVal.int 1000 ∧
      st2.previous_message = messageA) := by
  constructor
  · intro kvs name s verdict h1 h2 h3
    simp [parse_status, pyIn, hasKey, pyGetItemStr, verdictGet, pyHashable,
      h1, h2, h3]
  · exact ⟨LoopState.mk (PyVal.int 1000) messageA, rfl, rfl, rfl⟩

/-- C6 witness: the general template at Scenario A's record. -/
theorem claim_C6_witness :
    parse_status hwX =
      Except.ok ("Изменился статус проверки работы \"" ++
        pyStr (PyVal.str "X") ++ "\". " ++
        "Работа проверена: ревьюеру всё понравилось. Ура!") :=
  claim_C6_status_template.1
    [("homework_name", PyVal.str "X"), ("status", PyVal.str "approved")]
    (PyVal.str "X") "approved"
    "Работа проверена: ревьюеру всё понравилось. Ура!" rfl rfl rfl

/-- C7 counterexample: a record whose `status` value is the (unhashable)
empty list has both keys present and a status that is not one of
`approved`/`reviewing`/`rejected`, yet `parse_status` does not fail with the
Unknown-Verdict failure: the membership test `homework_status not in
HOMEWORK_VERDICTS` hashes the value first and raises
`TypeError: unhashable type: 'list'`. -/
theorem claim_C7_counterexample :
    parse_status hwBadStatus =
      Except.error (Exc.TypeErrorExc "unhashable type: \x27list\x27") ∧
    isUnknownVerdictErr (parse_status hwBadStatus) = false :=
  ⟨rfl, rfl⟩

/-- C7 amended: for every record with both keys present whose `status` value
is hashable (i.e. not a JSON array or object) and not a key of the verdict
mapping, `parse_status` fails with the Unknown-Verdict failure whose
description is the fixed text followed by the literal (f-string rendered)
status value — so the description contains that value. -/
theorem claim_C7_amended_unknown_verdict :
    ∀ (kvs : List (String × PyVal)) (name v : PyVal),
      lookupKey kvs "homework_name" = Option.some name →
      lookupKey kvs "status" = Option.some v →
      pyHashable v = true →
      verdictMem v = false →
      parse_status (PyVal.dict kvs) =
        Except.error (Exc.HWStatusNotExistException
          ("Неизвестный статус домашней работы: " ++ pyStr v)) := by
  intro kvs name v h1 h2 hh hv
  cases v <;>
    simp_all [parse_status, pyIn, hasKey, pyGetItemStr, verdictGet,
      pyHashable, verdictMem, Option.isSome_iff_exists]

/-- C7 witness for the amended claim: the status string `unknown`. -/
theorem claim_C7_amended_witness :
    parse_status (PyVal.dict [("homework_name", PyVal.str "X"),
        ("status", PyVal.str "unknown")]) =
      Except.error (Exc.HWStatusNotExistException
        ("Неизвестный статус домашней работы: " ++
          pyStr (PyVal.str "unknown"))) :=
  claim_C7_amended_unknown_verdict
    [("homework_name", PyVal.str "X"), ("status", PyVal.str "unknown")]
    (PyVal.str "X") (PyVal.str "unknown") rfl rfl rfl rfl

/-- C10: when an iteration decides to deliver (the computed message differs
from `previous_message`), `previous_message` is updated to the message even
when the delivery attempt failed and was swallowed (`Except.error err` as
the delivery oracle); consequently a later iteration computing the same
message delivers nothing. -/
theorem claim_C10_failed_delivery_not_resent :
    ∀ (f1 f2 : FetchOutcome) (err : String) (d2 : Except String Unit)
      (st st1 : LoopState) (sent1 : List String) (m : String),
      iterMessage f1 st.current_timestamp = m →
      m ≠ st.previous_message →
      iteration f1 (Except.error err) st = Except.ok (st1, sent1) →
      st1.previous_message = m ∧ sent1 = [m] ∧
      (∀ (st2 : LoopState) (sent2 : List String),
        iterMessage f2 st1.current_timestamp = m →
        iteration f2 d2 st1 = Except.ok (st2, sent2) → sent2 = []) := by
  intro f1 f2 err d2 st st1 sent1 m hm1 hne h1
  unfold iterMessage at hm1
  subst hm1
  have e1 := (iteration_spec f1 (Except.error err) st).symm.trans h1
  injection e1 with e1
  injection e1 with hst1 hsent1
  have hp : st1.previous_message = (loopTry f1 st.current_timestamp).1 := by
    rw [← hst1]
  refine ⟨hp, ?_, ?_⟩
  · rw [← hsent1]
    simp [hne]
  · intro st2 sent2 hm2 h2
    unfold iterMessage at hm2
    have e2 := (iteration_spec f2 d2 st1).symm.trans h2
    injection e2 with e2
    injection e2 with hst2 hsent2
    rw [← hsent2, hm2, hp]
    simp

/-- C10 witness: the sentinel message is computed, the delivery fails and is
swallowed, `previous_message` is still updated, and the next iteration with
the same message delivers nothing. -/
theorem claim_C10_witness :
    (LoopState.mk (PyVal.int 0) "Нет новых статусов").previous_message =
      "Нет новых статусов" ∧
    (["Нет новых статусов"] : List String) = ["Нет новых статусов"] ∧
    ([] : List String) = [] := by
  have h := claim_C10_failed_delivery_not_resent fetchEmpty fetchEmpty
    "Bad Request: chat not found" (Except.ok ()) initState
    (LoopState.mk (PyVal.int 0) "Нет новых статусов")
    ["Нет новых статусов"] "Нет новых статусов" rfl (by decide) rfl
  exact ⟨h.1, h.2.1,
    h.2.2 (LoopState.mk (PyVal.int 0) "Нет новых статусов") [] rfl rfl⟩
